import Mathlib

/-!
Verification of the authorization-and-receipt-numbering core of the
samuhlagna backend, as a shallow embedding in Lean 4.

The embedding follows the Python source:
  backend/login/permissions.py      (Permission, ROLE_PERMISSIONS, user_has_permission)
  backend/login/dependencies.py     (require_permission, require_roles)
  backend/router/receipts.py        (inline permission gates for create/update/delete)
  backend/api_request_response/receipts.py (ReceiptCreate, ReceiptUpdate)
  backend/manager/receipts.py       (get_receipt_creator_code, create_receipt,
                                     update_receipt, delete_receipt)

Machine-level conventions: Python ints are modelled as Nat (ids, years,
timestamps) with Int used where the source subtracts (receipt sequence);
Python str is String; Python None for optional payload fields is Option;
the database is modelled as explicit data (a user table, a role lookup,
and a list of receipts) threaded through the functions; datetime.now()
values are passed in as explicit parameters.
-/

/-- Decimal digit character, `chr(48 + d)`: models how Python renders one
decimal digit of a nonnegative int. -/
def decChar (d : Nat) : Char := Char.ofNat (48 + d)

/-- Fuel-driven decimal rendering of a nonnegative integer (digit characters,
most significant first).  Faithful to Python decimal formatting of a
nonnegative int; fuel at least n makes the result independent of fuel. -/
def natToDecimalAux : Nat → Nat → List Char
  | _, 0 => []
  | 0, _ => []
  | fuel + 1, n + 1 => natToDecimalAux fuel ((n + 1) / 10) ++ [decChar ((n + 1) % 10)]

/-- Decimal rendering of a Nat, as Python renders a nonnegative int
(so 0 renders as "0"). -/
def natToDecimal (n : Nat) : String :=
  if n = 0 then "0" else ⟨natToDecimalAux n n⟩

/-- Python format `"%04d"` on a nonnegative int: pad the decimal rendering
with leading zeros to at least 4 characters. -/
def pad4 (n : Nat) : String :=
  let s := natToDecimal n
  ⟨List.replicate (4 - s.data.length) '0' ++ s.data⟩

/-- Helper for `digitRuns`: scan the characters, accumulating the current
(reversed) run of digits. -/
def digitRunsAux : List Char → List Char → List String
  | [], acc => if acc.isEmpty then [] else [⟨acc.reverse⟩]
  | c :: rest, acc =>
    if c.isDigit then digitRunsAux rest (c :: acc)
    else if acc.isEmpty then digitRunsAux rest []
    else ⟨acc.reverse⟩ :: digitRunsAux rest []

/-- The maximal runs of decimal digits in a string, in order: models
Python `re.findall(r'\d+', s)` on ASCII input. -/
def digitRuns (s : String) : List String := digitRunsAux s.data []

/-- Helper for `pyReplace`: fuel-driven left-to-right replacement of every
occurrence of `pat` (assumed nonempty at the one call site) by `rep`. -/
def pyReplaceAux (pat rep : List Char) : Nat → List Char → List Char
  | 0, s => s
  | fuel + 1, s =>
    if pat.isPrefixOf s then rep ++ pyReplaceAux pat rep fuel (s.drop pat.length)
    else
      match s with
      | [] => []
      | c :: rest => c :: pyReplaceAux pat rep fuel rest

/-- Python `s.replace(pat, rep)`: replace every (leftmost, non-overlapping)
occurrence of `pat` in `s` by `rep`. -/
def pyReplace (s pat rep : String) : String :=
  ⟨pyReplaceAux pat.data rep.data s.data.length s.data⟩

/-- Python `s.startswith(pre)`. -/
def py_startswith (s pre : String) : Bool := pre.data.isPrefixOf s.data

/-- The closed set of capabilities, from `login/permissions.py` (`class Permission`). -/
inductive Permission
  | READ_USER_DATA
  | CREATE_USER_DATA
  | UPDATE_USER_DATA
  | DELETE_USER_DATA
  | EXPORT_USER_DATA
  | READ_VILLAGE_AREA
  | CREATE_VILLAGE_AREA
  | UPDATE_VILLAGE_AREA
  | DELETE_VILLAGE_AREA
  | READ_RECEIPTS
  | CREATE_RECEIPTS
  | UPDATE_RECEIPTS
  | DELETE_RECEIPTS
  | EXPORT_RECEIPTS
  | MANAGE_USERS
  | MANAGE_ROLES
  | VIEW_SYSTEM_STATS
deriving DecidableEq

open Permission in
/-- The static role to capability table `ROLE_PERMISSIONS` together with
`get_role_permissions` (`ROLE_PERMISSIONS.get(role, [])`): a role name
absent from the table grants nothing. -/
def get_role_permissions (role : String) : List Permission :=
  if role = "admin" then
    [READ_USER_DATA, CREATE_USER_DATA, UPDATE_USER_DATA, DELETE_USER_DATA,
     EXPORT_USER_DATA, READ_VILLAGE_AREA, CREATE_VILLAGE_AREA,
     UPDATE_VILLAGE_AREA, DELETE_VILLAGE_AREA, READ_RECEIPTS,
     CREATE_RECEIPTS, UPDATE_RECEIPTS, DELETE_RECEIPTS, EXPORT_RECEIPTS,
     MANAGE_USERS, MANAGE_ROLES, VIEW_SYSTEM_STATS]
  else if role = "user_data_editor" then
    [READ_USER_DATA, CREATE_USER_DATA, UPDATE_USER_DATA, DELETE_USER_DATA,
     EXPORT_USER_DATA, READ_VILLAGE_AREA, CREATE_VILLAGE_AREA,
     UPDATE_VILLAGE_AREA, DELETE_VILLAGE_AREA, VIEW_SYSTEM_STATS]
  else if role = "user_data_viewer" then
    [READ_USER_DATA, READ_VILLAGE_AREA, EXPORT_USER_DATA]
  else if role = "receipt_report_viewer" then
    [READ_RECEIPTS, EXPORT_RECEIPTS]
  else if role = "receipt_creator" then
    [CREATE_RECEIPTS, UPDATE_RECEIPTS, DELETE_RECEIPTS]
  else []

/-- `user_has_permission(user_roles, required_permission)` from
`login/permissions.py`: true iff some held role's bundle contains the
required permission. -/
def user_has_permission (user_roles : List String) (required : Permission) : Bool :=
  user_roles.any (fun role => (get_role_permissions role).contains required)

/-- A row of the `users` table, restricted to the fields the core reads. -/
structure User where
  id : Nat
  username : String
  is_active : Bool
  is_superuser : Bool
deriving DecidableEq

/-- A row of the `receipts` table as the ORM object holds it
(`models/receipts.py`); monetary amounts are abstracted as integers, dates
and timestamps as Nat.  Every attribute that the `update_receipt` setattr
loop can write is `Option`-typed because Python can assign None to any of
them (the store's NOT NULL constraints act only at commit; the `status`
column is nullable and its CHECK constraint passes on NULL, so a NULL
status even commits).  `id`, `receipt_no`, `created_by`, `created_at` and
`updated_at` are never written from a payload. -/
structure Receipt where
  id : Nat
  receipt_no : String
  receipt_date : Option Nat
  donor_name : Option String
  village : Option String
  residence : Option String
  mobile : Option String
  relation_address : Option String
  payment_mode : Option String
  payment_details : Option String
  donation1_purpose : Option String
  donation1_amount : Option Int
  donation2_amount : Option Int
  total_amount : Option Int
  total_amount_words : Option String
  status : Option String
  created_by : Nat
  created_at : Nat
  updated_at : Nat
deriving DecidableEq

/-- `ReceiptCreate` request schema (`api_request_response/receipts.py`). -/
structure ReceiptCreate where
  receipt_date : Nat
  donor_name : String
  village : Option String
  residence : Option String
  mobile : Option String
  relation_address : Option String
  payment_mode : String
  payment_details : Option String
  donation1_purpose : Option String
  donation1_amount : Option Int
  donation2_amount : Option Int
  total_amount : Int
  total_amount_words : Option String
deriving DecidableEq

/-- `ReceiptUpdate` request schema.  Each field is three-valued, matching
pydantic with `dict(exclude_unset=True)`: `none` means the field was not
supplied at all (excluded from the dict); `some none` means it was
explicitly supplied as null (pydantic accepts null for an `Optional`
field and `exclude_unset` keeps it); `some (some v)` means it was
supplied with value `v`. -/
structure ReceiptUpdate where
  receipt_date : Option (Option Nat) := none
  donor_name : Option (Option String) := none
  village : Option (Option String) := none
  residence : Option (Option String) := none
  mobile : Option (Option String) := none
  relation_address : Option (Option String) := none
  payment_mode : Option (Option String) := none
  payment_details : Option (Option String) := none
  donation1_purpose : Option (Option String) := none
  donation1_amount : Option (Option Int) := none
  donation2_amount : Option (Option Int) := none
  total_amount : Option (Option Int) := none
  total_amount_words : Option (Option String) := none
  status : Option (Option String) := none
deriving DecidableEq

/-- The pydantic validation on `ReceiptUpdate.status`
(`Optional[str] = Field(None, pattern="^(completed|cancelled)$")`): the
field is unset, explicitly null (the pattern is not applied to null), or
one of the two lifecycle values. -/
def ReceiptUpdate.statusPatternOk (u : ReceiptUpdate) : Prop :=
  u.status = none ∨ u.status = some none ∨
    u.status = some (some "completed") ∨ u.status = some (some "cancelled")

instance (u : ReceiptUpdate) : Decidable u.statusPatternOk := by
  unfold ReceiptUpdate.statusPatternOk
  infer_instance

/-- The database state the receipt core reads: the user table, the
role-assignment lookup (`get_user_roles` result per user id), and the
receipts table. -/
structure Db where
  users : List User
  user_roles_of : Nat → List String
  receipts : List Receipt

/-- `get_user_roles(db_session, user_id)` from `manager/auth.py`. -/
def get_user_roles (db : Db) (user_id : Nat) : List String :=
  db.user_roles_of user_id

/-- `db_session.query(User).filter(User.id == user_id).first()`. -/
def find_user (users : List User) (user_id : Nat) : Option User :=
  users.find? (fun u => u.id == user_id)

/-- `get_receipt_creator_code(db_session, user_id)` from
`manager/receipts.py` lines 26-63. -/
def get_receipt_creator_code (db : Db) (user_id : Nat) : String :=
  match find_user db.users user_id with
  | none => "RC" ++ natToDecimal user_id
  | some user =>
    let user_roles := get_user_roles db user_id
    if "admin" ∈ user_roles ∨ user.is_superuser = true then
      "RCA"
    else if py_startswith user.username "receipt_creator" then
      "RC" ++ pyReplace user.username "receipt_creator" ""
    else
      match (digitRuns user.username).getLast? with
      | some num => "RC" ++ num
      | none => "RC" ++ natToDecimal user_id

/-- The sequence component of a receipt code as computed by
`create_receipt` (lines 106-109): `id - 630`, falling back to the raw id
when that difference is not positive. -/
def receiptSequence (rid : Nat) : Nat :=
  let s : Int := (rid : Int) - 630
  if s ≤ 0 then rid else s.toNat

/-- The success path of `create_receipt(db_session, receipt_data, user_id)`
(`manager/receipts.py` lines 66-119).  `next_id` is the store-assigned row
identity obtained at the flush, `year` the current year, `now` the current
timestamp. -/
def create_receipt (db : Db) (next_id year now : Nat)
    (receipt_data : ReceiptCreate) (user_id : Nat) : Receipt :=
  let new_receipt : Receipt := {
    id := next_id
    receipt_no := "TEMP_" ++ natToDecimal now ++ "_" ++ natToDecimal user_id
    receipt_date := some receipt_data.receipt_date
    donor_name := some receipt_data.donor_name
    village := receipt_data.village
    residence := receipt_data.residence
    mobile := receipt_data.mobile
    relation_address := receipt_data.relation_address
    payment_mode := some receipt_data.payment_mode
    payment_details := receipt_data.payment_details
    donation1_purpose := receipt_data.donation1_purpose
    donation1_amount := some (receipt_data.donation1_amount.getD 0)
    donation2_amount := some (receipt_data.donation2_amount.getD 0)
    total_amount := some receipt_data.total_amount
    total_amount_words := receipt_data.total_amount_words
    status := some "completed"
    created_by := user_id
    created_at := now
    updated_at := now }
  let creator_code := get_receipt_creator_code db user_id
  let receipt_sequence := receiptSequence next_id
  let final_receipt_no :=
    creator_code ++ "/" ++ natToDecimal year ++ "/" ++ pad4 receipt_sequence
  { new_receipt with receipt_no := final_receipt_no }

/-- Errors `update_receipt` and `delete_receipt` raise before mutating:
HTTP 404 (receipt absent) and HTTP 403 (ownership violation). -/
inductive ApiError
  | notFound
  | forbidden
deriving DecidableEq

instance {ε α : Type} [DecidableEq ε] [DecidableEq α] : DecidableEq (Except ε α) :=
  fun a b =>
    match a, b with
    | .ok x, .ok y =>
      if h : x = y then .isTrue (by rw [h]) else .isFalse (by intro hc; cases hc; exact h rfl)
    | .error x, .error y =>
      if h : x = y then .isTrue (by rw [h]) else .isFalse (by intro hc; cases hc; exact h rfl)
    | .ok _, .error _ => .isFalse (by intro hc; cases hc)
    | .error _, .ok _ => .isFalse (by intro hc; cases hc)

/-- Application of a `ReceiptUpdate` payload to a receipt row:
`for field, value in updated_data.dict(exclude_unset=True).items():
setattr(receipt, field, value)`. A field keeps its old value exactly when
the payload omits it; a supplied field is written verbatim, including an
explicitly-supplied null, which setattr writes as None. -/
def applyReceiptUpdate (receipt : Receipt) (u : ReceiptUpdate) : Receipt :=
  { receipt with
    receipt_date := u.receipt_date.getD receipt.receipt_date
    donor_name := u.donor_name.getD receipt.donor_name
    village := u.village.getD receipt.village
    residence := u.residence.getD receipt.residence
    mobile := u.mobile.getD receipt.mobile
    relation_address := u.relation_address.getD receipt.relation_address
    payment_mode := u.payment_mode.getD receipt.payment_mode
    payment_details := u.payment_details.getD receipt.payment_details
    donation1_purpose := u.donation1_purpose.getD receipt.donation1_purpose
    donation1_amount := u.donation1_amount.getD receipt.donation1_amount
    donation2_amount := u.donation2_amount.getD receipt.donation2_amount
    total_amount := u.total_amount.getD receipt.total_amount
    total_amount_words := u.total_amount_words.getD receipt.total_amount_words
    status := u.status.getD receipt.status }

/-- `update_receipt(db_session, receipt_id, updated_data, user_id, user_roles)`
(`manager/receipts.py` lines 243-289): 404 when the receipt is absent, 403
when the caller holds "receipt_creator" and does not own the receipt,
otherwise apply the payload, stamp `updated_at`, and commit.  Returns the
receipts table after the call together with the outcome. -/
def update_receipt (receipts : List Receipt) (receipt_id : Nat)
    (updated_data : ReceiptUpdate) (user_id : Nat) (user_roles : List String)
    (now : Nat) : List Receipt × Except ApiError Receipt :=
  match receipts.find? (fun r => r.id == receipt_id) with
  | none => (receipts, .error .notFound)
  | some receipt =>
    if "receipt_creator" ∈ user_roles ∧ receipt.created_by ≠ user_id then
      (receipts, .error .forbidden)
    else
      let updated := { applyReceiptUpdate receipt updated_data with updated_at := now }
      (receipts.map (fun r => if r.id == receipt_id then updated else r), .ok updated)

/-- `delete_receipt(db_session, receipt_id, user_id, user_roles)`
(`manager/receipts.py` lines 301-341): 404 when the receipt is absent, 403
when the caller holds "receipt_creator" and does not own it, otherwise set
status to 'cancelled' (no physical deletion), stamp `updated_at`, and
return True. -/
def delete_receipt (receipts : List Receipt) (receipt_id : Nat)
    (user_id : Nat) (user_roles : List String) (now : Nat) :
    List Receipt × Except ApiError Bool :=
  match receipts.find? (fun r => r.id == receipt_id) with
  | none => (receipts, .error .notFound)
  | some receipt =>
    if "receipt_creator" ∈ user_roles ∧ receipt.created_by ≠ user_id then
      (receipts, .error .forbidden)
    else
      let cancelled := { receipt with status := some "cancelled", updated_at := now }
      (receipts.map (fun r => if r.id == receipt_id then cancelled else r), .ok true)

/-- The checker produced by `require_permission(permission)`
(`login/dependencies.py` lines 101-122): a superuser passes
unconditionally, otherwise the role bundles decide. -/
def require_permission_check (required : Permission) (current_user : User)
    (user_roles : List String) : Bool :=
  if current_user.is_superuser then true
  else user_has_permission user_roles required

/-- The checker produced by `require_roles(allowed_roles)`
(`login/dependencies.py` lines 77-98): a superuser passes unconditionally,
otherwise the caller must hold one of the allowed roles. -/
def require_roles_check (allowed_roles : List String) (current_user : User)
    (user_roles : List String) : Bool :=
  if current_user.is_superuser then true
  else allowed_roles.any (fun role => user_roles.contains role)

/-- The inline permission gate of the POST /receipts endpoint
(`router/receipts.py` lines 42-52): it consults only the role-derived
permissions; the `current_user` record (and so its superuser flag) is not
examined. -/
def router_create_receipt_gate (current_user : User) (user_roles : List String) : Bool :=
  user_has_permission user_roles Permission.CREATE_RECEIPTS

/-- The inline permission gate of the PUT /receipts/{id} endpoint
(`router/receipts.py` lines 272-282). -/
def router_update_receipt_gate (current_user : User) (user_roles : List String) : Bool :=
  user_has_permission user_roles Permission.UPDATE_RECEIPTS

/-- The inline permission gate of the DELETE /receipts/{id} endpoint
(`router/receipts.py` lines 313-323). -/
def router_delete_receipt_gate (current_user : User) (user_roles : List String) : Bool :=
  user_has_permission user_roles Permission.DELETE_RECEIPTS

/-- Failure kinds a store operation inside `create_receipt` can raise. -/
inductive StepFailure
  | uniqueViolation
  | storeUnavailable
deriving DecidableEq

/-- Injected outcomes for the three store steps of one `create_receipt`
call: the provisional insert (step 1), the flush acquiring the identity
(step 2), and the commit (step 4). -/
structure CreateAttempt where
  insert_fails : Option StepFailure
  flush_fails : Option StepFailure
  commit_fails : Option StepFailure
deriving DecidableEq

/-- What the caller of `create_receipt` observes. -/
inductive CreateResult
  | ok (r : Receipt)
  | http500
deriving DecidableEq

/-- The control flow of `create_receipt` (lines 78-126): a single `try`
block covering all steps with one `except` that rolls back and raises
HTTP 500.  There is no loop: the returned count of provisional-insert
attempts performed is always 1, and the first failure of any step is
surfaced. -/
def create_receipt_proc (db : Db) (next_id year now : Nat)
    (receipt_data : ReceiptCreate) (user_id : Nat) (att : CreateAttempt) :
    CreateResult × Nat :=
  match att.insert_fails with
  | some _ => (.http500, 1)
  | none =>
    match att.flush_fails with
    | some _ => (.http500, 1)
    | none =>
      match att.commit_fails with
      | some _ => (.http500, 1)
      | none => (.ok (create_receipt db next_id year now receipt_data user_id), 1)

/-! ## Concrete fixtures used to instantiate the theorems -/

/-- A database whose only user is the receipt creator of the spec scenario:
username "receipt_creator7", id 7, role list ["receipt_creator"]. -/
def c2db : Db :=
  { users := [{ id := 7, username := "receipt_creator7", is_active := true,
                is_superuser := false }]
    user_roles_of := fun uid => if uid = 7 then ["receipt_creator"] else []
    receipts := [] }

/-- A well-formed receipt-creation payload. -/
def c2data : ReceiptCreate :=
  { receipt_date := 20251130, donor_name := "John Doe", village := none,
    residence := none, mobile := none, relation_address := none,
    payment_mode := "Cash", payment_details := none, donation1_purpose := none,
    donation1_amount := some 1000, donation2_amount := none,
    total_amount := 1000, total_amount_words := none }

/-- A database whose only user matches none of the recognized creator-code
patterns: username "user5" (no admin role, not a superuser, does not start
with "receipt_creator") with id 9. -/
def c7db : Db :=
  { users := [{ id := 9, username := "user5", is_active := true,
                is_superuser := false }]
    user_roles_of := fun _ => []
    receipts := [] }

/-- A superuser who has been assigned no roles. -/
def su_no_roles : User :=
  { id := 42, username := "root", is_active := true, is_superuser := true }

/-- A committed receipt owned by user 7. -/
def w_receipt : Receipt :=
  { id := 1, receipt_no := "RC7/2025/0777", receipt_date := some 20251130,
    donor_name := some "John Doe", village := none, residence := none,
    mobile := none, relation_address := none, payment_mode := some "Cash",
    payment_details := none, donation1_purpose := none,
    donation1_amount := some 1000, donation2_amount := some 0,
    total_amount := some 1000, total_amount_words := none,
    status := some "completed", created_by := 7, created_at := 10, updated_at := 10 }

/-- The same receipt owned by a different user (id 8). -/
def w_other : Receipt := { w_receipt with created_by := 8 }

/-- `w_receipt` after cancellation. -/
def w_cancelled : Receipt := { w_receipt with status := some "cancelled" }

/-- An update payload that only sets the status back to "completed"; it
satisfies the `ReceiptUpdate` status pattern. -/
def resurrectUpd : ReceiptUpdate := { status := some (some "completed") }

/-- An update payload that supplies the status explicitly as null; pydantic
accepts it and `exclude_unset` keeps it, so the setattr loop writes None. -/
def nullStatusUpd : ReceiptUpdate := { status := some none }

/-- An injected store outcome where the provisional insert hits the unique
constraint on the receipt-code column. -/
def c8att : CreateAttempt :=
  { insert_fails := some .uniqueViolation, flush_fails := none, commit_fails := none }

/-! ## Decimal rendering: characterization and injectivity -/

/-- Rendering 0 consumes no fuel and produces no characters. -/
lemma natToDecimalAux_zero (fuel : Nat) : natToDecimalAux fuel 0 = [] := by
  cases fuel <;> rfl

/-- Unfolding equation of `natToDecimalAux` on a positive input. -/
lemma natToDecimalAux_succ (fuel n : Nat) :
    natToDecimalAux (fuel + 1) (n + 1) =
      natToDecimalAux fuel ((n + 1) / 10) ++ [decChar ((n + 1) % 10)] := rfl

/-- With enough fuel, `natToDecimalAux` renders exactly the base-10 digits,
most significant first. -/
lemma natToDecimalAux_eq_digits (n : Nat) : ∀ fuel, n ≤ fuel →
    natToDecimalAux fuel n = ((Nat.digits 10 n).map decChar).reverse := by
  induction n using Nat.strong_induction_on with
  | _ n ih =>
    intro fuel h
    cases n with
    | zero => simp [natToDecimalAux_zero]
    | succ m =>
      cases fuel with
      | zero => omega
      | succ f =>
        rw [natToDecimalAux_succ]
        have hlt : (m + 1) / 10 < m + 1 := Nat.div_lt_self (Nat.succ_pos m) (by norm_num)
        rw [ih ((m + 1) / 10) hlt f (by omega)]
        rw [Nat.digits_def' (by norm_num : (1 : ℕ) < 10) (Nat.succ_pos m)]
        simp

/-- The characters of the decimal rendering of `n`. -/
lemma natToDecimal_data (n : Nat) :
    (natToDecimal n).data =
      if n = 0 then ['0'] else ((Nat.digits 10 n).map decChar).reverse := by
  unfold natToDecimal
  split
  · rfl
  · exact natToDecimalAux_eq_digits n n le_rfl

/-- `decChar` is injective on decimal digits. -/
lemma decChar_inj_lt : ∀ d1 < 10, ∀ d2 < 10, decChar d1 = decChar d2 → d1 = d2 := by
  decide

/-- Mapping `decChar` over lists of decimal digits is injective. -/
lemma map_decChar_inj : ∀ (l1 l2 : List Nat), (∀ d ∈ l1, d < 10) → (∀ d ∈ l2, d < 10) →
    l1.map decChar = l2.map decChar → l1 = l2
  | [], [], _, _, _ => rfl
  | [], _ :: _, _, _, h => by simp at h
  | _ :: _, [], _, _, h => by simp at h
  | a :: t1, b :: t2, h1, h2, h => by
    simp only [List.map_cons, List.cons.injEq] at h
    have ha : a = b :=
      decChar_inj_lt a (h1 a (List.mem_cons_self a t1)) b (h2 b (List.mem_cons_self b t2)) h.1
    have ht : t1 = t2 :=
      map_decChar_inj t1 t2 (fun d hd => h1 d (List.mem_cons_of_mem a hd))
        (fun d hd => h2 d (List.mem_cons_of_mem b hd)) h.2
    rw [ha, ht]

/-- Distinct naturals render to distinct decimal strings. -/
lemma natToDecimal_inj {n m : Nat} (h : natToDecimal n = natToDecimal m) : n = m := by
  have hd : (natToDecimal n).data = (natToDecimal m).data := congrArg String.data h
  rw [natToDecimal_data, natToDecimal_data] at hd
  by_cases hn : n = 0 <;> by_cases hm : m = 0
  · rw [hn, hm]
  · exfalso
    rw [if_pos hn, if_neg hm] at hd
    have hrev : (Nat.digits 10 m).map decChar = ['0'] := by
      have := congrArg List.reverse hd
      simpa using this.symm
    have hdig : Nat.digits 10 m = [0] :=
      map_decChar_inj (Nat.digits 10 m) [0]
        (fun d hdm => Nat.digits_lt_base (by norm_num) hdm)
        (by simp) (by simpa using hrev)
    have hm0 : m = Nat.ofDigits 10 [0] := by rw [← hdig, Nat.ofDigits_digits]
    simp [Nat.ofDigits] at hm0
    exact hm hm0
  · exfalso
    rw [if_neg hn, if_pos hm] at hd
    have hrev : (Nat.digits 10 n).map decChar = ['0'] := by
      have := congrArg List.reverse hd
      simpa using this
    have hdig : Nat.digits 10 n = [0] :=
      map_decChar_inj (Nat.digits 10 n) [0]
        (fun d hdm => Nat.digits_lt_base (by norm_num) hdm)
        (by simp) (by simpa using hrev)
    have hn0 : n = Nat.ofDigits 10 [0] := by rw [← hdig, Nat.ofDigits_digits]
    simp [Nat.ofDigits] at hn0
    exact hn hn0
  · rw [if_neg hn, if_neg hm] at hd
    have hmap : (Nat.digits 10 n).map decChar = (Nat.digits 10 m).map decChar := by
      have := congrArg List.reverse hd
      simpa using this
    have hdig : Nat.digits 10 n = Nat.digits 10 m :=
      map_decChar_inj _ _ (fun d hdm => Nat.digits_lt_base (by norm_num) hdm)
        (fun d hdm => Nat.digits_lt_base (by norm_num) hdm) hmap
    calc n = Nat.ofDigits 10 (Nat.digits 10 n) := (Nat.ofDigits_digits 10 n).symm
    _ = Nat.ofDigits 10 (Nat.digits 10 m) := by rw [hdig]
    _ = m := Nat.ofDigits_digits 10 m

/-- Two strings with the same character data are equal. -/
lemma stringEqOfData {a b : String} (h : a.data = b.data) : a = b := by
  cases a
  cases b
  exact congrArg String.mk h

/-- Character data of a string concatenation. -/
lemma string_data_append (a b : String) : (a ++ b).data = a.data ++ b.data := by
  cases a
  cases b
  rfl

/-- String concatenation cancels on the left. -/
lemma string_append_left_cancel {p s t : String} (h : p ++ s = p ++ t) : s = t := by
  apply stringEqOfData
  have hd := congrArg String.data h
  rw [string_data_append, string_data_append] at hd
  exact List.append_cancel_left hd

/-- Dropping leading zeros ignores a zero-padding prefix. -/
lemma dropWhile_replicate_zero (k : Nat) (l : List Char) :
    List.dropWhile (fun c => c == '0') (List.replicate k '0' ++ l) =
      List.dropWhile (fun c => c == '0') l := by
  induction k with
  | zero => simp
  | succ k ih => simp [List.replicate_succ, List.dropWhile_cons, ih]

/-- The decimal rendering of a positive number starts with a nonzero digit
character. -/
lemma natToDecimal_head_ne_zero (n : Nat) (hn : n ≠ 0) :
    ∃ c l, (natToDecimal n).data = c :: l ∧ (c == '0') = false := by
  rcases List.eq_nil_or_concat (Nat.digits 10 n) with hnil | ⟨L, d, hLd⟩
  · exact absurd hnil (Nat.digits_ne_nil_iff_ne_zero.mpr hn)
  · refine ⟨decChar d, (L.map decChar).reverse, ?_, ?_⟩
    · rw [natToDecimal_data, if_neg hn, hLd]
      simp
    · have hdne : d ≠ 0 := by
        have hlast := Nat.getLast_digit_ne_zero 10 hn
        have : (Nat.digits 10 n).getLast (Nat.digits_ne_nil_iff_ne_zero.mpr hn) = d := by
          simp [hLd]
        rwa [this] at hlast
      have hdlt : d < 10 :=
        Nat.digits_lt_base (by norm_num)
          (by rw [hLd, List.concat_eq_append]
              exact List.mem_append_right L (List.mem_singleton_self d))
      by_contra hbeq
      simp only [Bool.not_eq_false, beq_iff_eq] at hbeq
      exact hdne (decChar_inj_lt d hdlt 0 (by norm_num) hbeq)

/-- Zero-padding to four characters does not conflate distinct numbers. -/
lemma pad4_inj {n m : Nat} (h : pad4 n = pad4 m) : n = m := by
  have hd : (pad4 n).data = (pad4 m).data := congrArg String.data h
  have hdrop :
      List.dropWhile (fun c => c == '0') (natToDecimal n).data =
        List.dropWhile (fun c => c == '0') (natToDecimal m).data := by
    have := congrArg (List.dropWhile (fun c => c == '0')) hd
    simpa [pad4, dropWhile_replicate_zero] using this
  by_cases hn : n = 0 <;> by_cases hm : m = 0
  · rw [hn, hm]
  · exfalso
    obtain ⟨c, l, hcl, hc0⟩ := natToDecimal_head_ne_zero m hm
    rw [hn, hcl] at hdrop
    have hlhs : List.dropWhile (fun c => c == '0') (natToDecimal 0).data = [] := by decide
    rw [hlhs, List.dropWhile_cons, if_neg (by simp [hc0])] at hdrop
    exact List.cons_ne_nil c l hdrop.symm
  · exfalso
    obtain ⟨c, l, hcl, hc0⟩ := natToDecimal_head_ne_zero n hn
    rw [hm, hcl] at hdrop
    have hrhs : List.dropWhile (fun c => c == '0') (natToDecimal 0).data = [] := by decide
    rw [hrhs, List.dropWhile_cons, if_neg (by simp [hc0])] at hdrop
    exact List.cons_ne_nil c l hdrop
  · obtain ⟨cn, ln, hcln, hcn0⟩ := natToDecimal_head_ne_zero n hn
    obtain ⟨cm, lm, hclm, hcm0⟩ := natToDecimal_head_ne_zero m hm
    rw [hcln, hclm, List.dropWhile_cons, List.dropWhile_cons,
      if_neg (by simp [hcn0]), if_neg (by simp [hcm0])] at hdrop
    exact natToDecimal_inj (stringEqOfData (hcln.trans (hdrop.trans hclm.symm)))

/-- `receiptSequence` written without the Int detour. -/
lemma receiptSequence_eq (n : Nat) :
    receiptSequence n = if 630 < n then n - 630 else n := by
  simp only [receiptSequence]
  split <;> split <;> omega

/-- On identities lying on the same side of the offset boundary, the
derived sequence is strictly monotone. -/
lemma receiptSequence_strictMono_same_side {a b : Nat} (hab : a < b)
    (hside : b ≤ 630 ∨ 630 < a) : receiptSequence a < receiptSequence b := by
  rw [receiptSequence_eq, receiptSequence_eq]
  rcases hside with h | h <;> split <;> split <;> omega

/-- On identities lying on the same side of the offset boundary, the
derived sequence is injective. -/
lemma receiptSequence_inj_same_side {a b : Nat} (hne : a ≠ b)
    (hside : a ≤ 630 ↔ b ≤ 630) : receiptSequence a ≠ receiptSequence b := by
  rw [receiptSequence_eq, receiptSequence_eq]
  rcases hside with ⟨h1, h2⟩
  split <;> split <;> omega

/-- The final receipt code produced by the success path of `create_receipt`. -/
lemma create_receipt_receipt_no (db : Db) (next_id year now : Nat)
    (receipt_data : ReceiptCreate) (user_id : Nat) :
    (create_receipt db next_id year now receipt_data user_id).receipt_no =
      get_receipt_creator_code db user_id ++ "/" ++ natToDecimal year ++ "/" ++
        pad4 (receiptSequence next_id) := rfl

/-! ## Shape lemmas for the receipts manager operations -/

/-- Looking up by id after replacing the rows with that id: the lookup
finds the replacement exactly when it found a row before. -/
lemma find?_map_replace (l : List Receipt) (rid : Nat) (newr : Receipt)
    (h : newr.id = rid) :
    (l.map (fun r => if r.id == rid then newr else r)).find? (fun x => x.id == rid) =
      (l.find? (fun x => x.id == rid)).map (fun _ => newr) := by
  induction l with
  | nil => rfl
  | cons a t ih =>
    by_cases ha : a.id = rid
    · have hb : (a.id == rid) = true := beq_iff_eq.mpr ha
      have hbn : (newr.id == rid) = true := beq_iff_eq.mpr h
      simp only [List.map_cons, hb, if_true, List.find?_cons, hbn]
      rfl
    · have hb : (a.id == rid) = false := beq_eq_false_iff_ne.mpr ha
      simp only [List.map_cons, hb, Bool.false_eq_true, if_false, List.find?_cons, ih]

/-- Reduction of `update_receipt` when the receipt is found and the
ownership check passes. -/
lemma update_receipt_found (receipts : List Receipt) (rid : Nat)
    (upd : ReceiptUpdate) (uid : Nat) (roles : List String) (now : Nat)
    (r : Receipt) (hfind : receipts.find? (fun x => x.id == rid) = some r)
    (hallow : ¬("receipt_creator" ∈ roles ∧ r.created_by ≠ uid)) :
    update_receipt receipts rid upd uid roles now =
      (receipts.map (fun x =>
          if x.id == rid then { applyReceiptUpdate r upd with updated_at := now } else x),
        .ok { applyReceiptUpdate r upd with updated_at := now }) := by
  simp only [update_receipt, hfind]
  rw [if_neg hallow]

/-- Reduction of `update_receipt` when the receipt is found but the caller
is a "receipt_creator" who does not own it: HTTP 403, table untouched. -/
lemma update_receipt_forbidden (receipts : List Receipt) (rid : Nat)
    (upd : ReceiptUpdate) (uid : Nat) (roles : List String) (now : Nat)
    (r : Receipt) (hfind : receipts.find? (fun x => x.id == rid) = some r)
    (hrole : "receipt_creator" ∈ roles) (hown : r.created_by ≠ uid) :
    update_receipt receipts rid upd uid roles now = (receipts, .error .forbidden) := by
  simp only [update_receipt, hfind]
  rw [if_pos ⟨hrole, hown⟩]

/-- Reduction of `delete_receipt` when the receipt is found and the
ownership check passes. -/
lemma delete_receipt_found (receipts : List Receipt) (rid : Nat)
    (uid : Nat) (roles : List String) (now : Nat)
    (r : Receipt) (hfind : receipts.find? (fun x => x.id == rid) = some r)
    (hallow : ¬("receipt_creator" ∈ roles ∧ r.created_by ≠ uid)) :
    delete_receipt receipts rid uid roles now =
      (receipts.map (fun x =>
          if x.id == rid then { r with status := some "cancelled", updated_at := now }
          else x),
        .ok true) := by
  simp only [delete_receipt, hfind]
  rw [if_neg hallow]

/-- Reduction of `delete_receipt` when the receipt is found but the caller
is a "receipt_creator" who does not own it: HTTP 403, table untouched. -/
lemma delete_receipt_forbidden (receipts : List Receipt) (rid : Nat)
    (uid : Nat) (roles : List String) (now : Nat)
    (r : Receipt) (hfind : receipts.find? (fun x => x.id == rid) = some r)
    (hrole : "receipt_creator" ∈ roles) (hown : r.created_by ≠ uid) :
    delete_receipt receipts rid uid roles now = (receipts, .error .forbidden) := by
  simp only [delete_receipt, hfind]
  rw [if_pos ⟨hrole, hown⟩]

/-- A found receipt actually carries the looked-up id. -/
lemma find?_id_eq {receipts : List Receipt} {rid : Nat} {r : Receipt}
    (hfind : receipts.find? (fun x => x.id == rid) = some r) : r.id = rid := by
  have := List.find?_some hfind
  simpa using this

/-! ## Claims about the receipt sequencer -/

/-- Claim C1, as stated, is false on the code: the code synthesis of
`create_receipt` is not injective over distinct store-assigned identities.
Identity 100 takes the non-positive-sequence fallback (sequence 100) and
identity 730 = 100 + 630 derives the same sequence 100, so two creations
by the same creator in the same year yield the same final code. -/
theorem C1_counterexample :
    (100 : Nat) ≠ 730 ∧ (730 : Nat) = 100 + 630 ∧
    receiptSequence 100 = 100 ∧ receiptSequence 730 = 100 ∧
    (create_receipt c2db 100 2025 0 c2data 7).receipt_no =
      (create_receipt c2db 730 2025 0 c2data 7).receipt_no ∧
    (create_receipt c2db 100 2025 0 c2data 7).receipt_no = "RC7/2025/0100" := by
  decide

/-- Claim C1 amended: the code synthesis is injective over distinct
store-assigned identities that lie on the same side of the 630 offset
boundary (both at most 630, or both above it); only a pair straddling the
boundary with `id2 = id1 + 630` can collide, and such a duplicate is
rejected by the store's unique constraint on the code column rather than
committed. -/
theorem C1_code_injective_same_side (db : Db) (year now1 now2 : Nat)
    (rd1 rd2 : ReceiptCreate) (user_id : Nat) (id1 id2 : Nat)
    (hne : id1 ≠ id2) (hside : id1 ≤ 630 ↔ id2 ≤ 630) :
    (create_receipt db id1 year now1 rd1 user_id).receipt_no ≠
      (create_receipt db id2 year now2 rd2 user_id).receipt_no := by
  intro heq
  rw [create_receipt_receipt_no, create_receipt_receipt_no] at heq
  exact receiptSequence_inj_same_side hne hside
    (pad4_inj (string_append_left_cancel heq))

/-- Claim C1 witness: two concrete same-side creations get distinct codes. -/
theorem C1_witness :
    (create_receipt c2db 700 2025 0 c2data 7).receipt_no ≠
      (create_receipt c2db 800 2025 0 c2data 7).receipt_no :=
  C1_code_injective_same_side c2db 2025 0 0 c2data c2data 7 700 800
    (by decide) (by decide)

/-- Claim C2: the final receipt code is
creator_code/year/sequence with the sequence equal to the store-assigned
identity minus 630 when that difference is positive and the raw identity
otherwise, zero-padded to at least four digits; in particular the
principal with roles ["receipt_creator"] and username "receipt_creator7"
creating in 2025 at identity 1407 receives "RC7/2025/0777". -/
theorem C2_receipt_code_formula :
    (∀ (db : Db) (next_id year now : Nat) (rd : ReceiptCreate) (user_id : Nat),
        (create_receipt db next_id year now rd user_id).receipt_no =
          get_receipt_creator_code db user_id ++ "/" ++ natToDecimal year ++ "/" ++
            pad4 (if 630 < next_id then next_id - 630 else next_id)) ∧
    (create_receipt c2db 1407 2025 0 c2data 7).receipt_no = "RC7/2025/0777" ∧
    get_user_roles c2db 7 = ["receipt_creator"] ∧
    (find_user c2db.users 7).map User.username = some "receipt_creator7" ∧
    (find_user c2db.users 7).map User.is_superuser = some false := by
  refine ⟨?_, by decide, by decide, by decide, by decide⟩
  intro db next_id year now rd user_id
  rw [create_receipt_receipt_no, receiptSequence_eq]

/-- Claim C6, as stated, is false on the code: the sequence embedded in
the receipt code is not strictly increasing across all identities.
Identity 100 yields sequence 100 while the larger identity 631 yields
sequence 1. -/
theorem C6_counterexample :
    (100 : Nat) < 631 ∧ receiptSequence 100 = 100 ∧ receiptSequence 631 = 1 ∧
    ¬ receiptSequence 100 < receiptSequence 631 ∧
    (create_receipt c2db 100 2025 0 c2data 7).receipt_no = "RC7/2025/0100" ∧
    (create_receipt c2db 631 2025 0 c2data 7).receipt_no = "RC7/2025/0001" := by
  decide

/-- Claim C6 amended: the derived sequence is strictly increasing in the
store-assigned identity as long as the two identities lie on the same side
of the 630 offset boundary; a pair straddling the boundary can decrease. -/
theorem C6_sequence_monotone_same_side (a b : Nat) (hab : a < b)
    (hside : b ≤ 630 ∨ 630 < a) : receiptSequence a < receiptSequence b :=
  receiptSequence_strictMono_same_side hab hside

/-- Claim C6 witness: monotone on a concrete same-side pair. -/
theorem C6_witness : receiptSequence 700 < receiptSequence 800 :=
  C6_sequence_monotone_same_side 700 800 (by decide) (by decide)

/-- Claim C7, as stated, is false on the code: for a principal that is not
an admin/superuser and whose username does not start with
"receipt_creator", the fallback is not "RC" plus the principal's id when
the username contains digits. User id 9 with username "user5" gets "RC5"
(the last digit run of the username), not "RC9". -/
theorem C7_counterexample :
    get_receipt_creator_code c7db 9 = "RC5" ∧
    get_receipt_creator_code c7db 9 ≠ "RC" ++ natToDecimal 9 ∧
    (find_user c7db.users 9).map User.username = some "user5" ∧
    (find_user c7db.users 9).map User.is_superuser = some false ∧
    get_user_roles c7db 9 = [] ∧
    py_startswith "user5" "receipt_creator" = false := by
  decide

/-- Claim C7 amended: `get_receipt_creator_code` returns "RCA" for a
found admin-role or superuser principal; "RC" plus the username with every
occurrence of "receipt_creator" removed when the username starts with
"receipt_creator"; otherwise "RC" plus the last run of digits of the
username when there is one, and "RC" plus the principal's id when the
username has no digits or the user row is absent. -/
theorem C7_creator_code_cases (db : Db) (user_id : Nat) :
    (find_user db.users user_id = none →
      get_receipt_creator_code db user_id = "RC" ++ natToDecimal user_id) ∧
    (∀ u, find_user db.users user_id = some u →
      (("admin" ∈ get_user_roles db user_id ∨ u.is_superuser = true) →
        get_receipt_creator_code db user_id = "RCA") ∧
      (¬("admin" ∈ get_user_roles db user_id ∨ u.is_superuser = true) →
        py_startswith u.username "receipt_creator" = true →
        get_receipt_creator_code db user_id =
          "RC" ++ pyReplace u.username "receipt_creator" "") ∧
      (¬("admin" ∈ get_user_roles db user_id ∨ u.is_superuser = true) →
        py_startswith u.username "receipt_creator" = false →
        (∀ num, (digitRuns u.username).getLast? = some num →
            get_receipt_creator_code db user_id = "RC" ++ num) ∧
        ((digitRuns u.username).getLast? = none →
            get_receipt_creator_code db user_id = "RC" ++ natToDecimal user_id))) := by
  constructor
  · intro hnone
    simp [get_receipt_creator_code, hnone]
  · intro u hu
    refine ⟨?_, ?_, ?_⟩
    · intro hadm
      simp only [get_receipt_creator_code, hu]
      rw [if_pos hadm]
    · intro hadm hpre
      simp only [get_receipt_creator_code, hu]
      rw [if_neg hadm, if_pos hpre]
    · intro hadm hpre
      constructor
      · intro num hnum
        simp only [get_receipt_creator_code, hu]
        rw [if_neg hadm, if_neg (by rw [hpre]; exact Bool.false_ne_true), hnum]
      · intro hnone
        simp only [get_receipt_creator_code, hu]
        rw [if_neg hadm, if_neg (by rw [hpre]; exact Bool.false_ne_true), hnone]

/-- Claim C7 witness: the amended branch facts instantiated concretely. -/
theorem C7_witness :
    get_receipt_creator_code c7db 9 = "RC" ++ "5" ∧
    get_receipt_creator_code c2db 7 = "RC" ++ pyReplace "receipt_creator7" "receipt_creator" "" :=
  ⟨((((C7_creator_code_cases c7db 9).2
      { id := 9, username := "user5", is_active := true, is_superuser := false }
      (by decide)).2.2 (by decide) (by decide)).1 "5" (by decide)),
   (((C7_creator_code_cases c2db 7).2
      { id := 7, username := "receipt_creator7", is_active := true, is_superuser := false }
      (by decide)).2.1 (by decide) (by decide))⟩

/-! ## Claims about authorization gates and ownership -/

/-- Claim C3, as stated, is false on the code: the superuser bypass lives
only in the `require_permission`/`require_roles` dependency checkers; the
receipt creation, update and delete endpoints gate inline on role-derived
permissions and never consult the superuser flag, so a superuser holding
no roles is denied there. -/
theorem C3_counterexample :
    su_no_roles.is_superuser = true ∧
    router_create_receipt_gate su_no_roles [] = false ∧
    router_update_receipt_gate su_no_roles [] = false ∧
    router_delete_receipt_gate su_no_roles [] = false ∧
    require_permission_check Permission.CREATE_RECEIPTS su_no_roles [] = true := by
  decide

/-- Claim C3 amended: a superuser passes `require_permission` for every
capability and `require_roles` for every role list, unconditionally and
regardless of role assignments; the receipt create/update/delete endpoint
gates, however, ignore the user record entirely (hence the superuser
flag), depending only on the role list. -/
theorem C3_superuser_bypass_scope :
    (∀ (p : Permission) (u : User) (roles : List String),
        u.is_superuser = true → require_permission_check p u roles = true) ∧
    (∀ (allowed : List String) (u : User) (roles : List String),
        u.is_superuser = true → require_roles_check allowed u roles = true) ∧
    (∀ (u v : User) (roles : List String),
        router_create_receipt_gate u roles = router_create_receipt_gate v roles ∧
        router_update_receipt_gate u roles = router_update_receipt_gate v roles ∧
        router_delete_receipt_gate u roles = router_delete_receipt_gate v roles) := by
  refine ⟨?_, ?_, ?_⟩
  · intro p u roles hsu
    simp [require_permission_check, hsu]
  · intro allowed u roles hsu
    simp [require_roles_check, hsu]
  · intro u v roles
    exact ⟨rfl, rfl, rfl⟩

/-- Claim C3 witness: the superuser bypass and the user-independence of
the endpoint gates, instantiated concretely. -/
theorem C3_witness :
    require_permission_check Permission.MANAGE_USERS su_no_roles [] = true ∧
    require_roles_check ["admin"] su_no_roles [] = true ∧
    router_create_receipt_gate su_no_roles ["receipt_creator"] =
      router_create_receipt_gate
        { id := 1, username := "u", is_active := true, is_superuser := false }
        ["receipt_creator"] :=
  ⟨C3_superuser_bypass_scope.1 Permission.MANAGE_USERS su_no_roles [] (by decide),
   C3_superuser_bypass_scope.2.1 ["admin"] su_no_roles [] (by decide),
   (C3_superuser_bypass_scope.2.2 su_no_roles
      { id := 1, username := "u", is_active := true, is_superuser := false }
      ["receipt_creator"]).1⟩

/-- Claim C4: for a principal holding the "receipt_creator" role,
`update_receipt` and `delete_receipt` on a receipt created by someone else
fail with HTTP 403 and leave the receipts table unchanged, while the same
operations on the principal's own receipt succeed. -/
theorem C4_ownership (receipts : List Receipt) (rid uid now : Nat)
    (roles : List String) (upd : ReceiptUpdate) (r : Receipt)
    (hfind : receipts.find? (fun x => x.id == rid) = some r)
    (hrole : "receipt_creator" ∈ roles) :
    (r.created_by ≠ uid →
        update_receipt receipts rid upd uid roles now = (receipts, .error .forbidden) ∧
        delete_receipt receipts rid uid roles now = (receipts, .error .forbidden)) ∧
    (r.created_by = uid →
        (update_receipt receipts rid upd uid roles now).2 =
          .ok { applyReceiptUpdate r upd with updated_at := now } ∧
        (delete_receipt receipts rid uid roles now).2 = .ok true) := by
  constructor
  · intro hne
    exact ⟨update_receipt_forbidden receipts rid upd uid roles now r hfind hrole hne,
           delete_receipt_forbidden receipts rid uid roles now r hfind hrole hne⟩
  · intro hown
    have hallow : ¬("receipt_creator" ∈ roles ∧ r.created_by ≠ uid) := by
      intro hc
      exact hc.2 hown
    rw [update_receipt_found receipts rid upd uid roles now r hfind hallow,
        delete_receipt_found receipts rid uid roles now r hfind hallow]
    exact ⟨rfl, rfl⟩

/-- Claim C4 witness: ownership denial on another user's receipt and
success on the caller's own receipt, instantiated concretely. -/
theorem C4_witness :
    (update_receipt [w_other] 1 {} 7 ["receipt_creator"] 99 =
        ([w_other], .error .forbidden) ∧
      delete_receipt [w_other] 1 7 ["receipt_creator"] 99 =
        ([w_other], .error .forbidden)) ∧
    ((update_receipt [w_receipt] 1 {} 7 ["receipt_creator"] 99).2 =
        .ok { applyReceiptUpdate w_receipt {} with updated_at := 99 } ∧
      (delete_receipt [w_receipt] 1 7 ["receipt_creator"] 99).2 = .ok true) :=
  ⟨(C4_ownership [w_other] 1 7 99 ["receipt_creator"] {} w_other
      (by decide) (by decide)).1 (by decide),
   (C4_ownership [w_receipt] 1 7 99 ["receipt_creator"] {} w_receipt
      (by decide) (by decide)).2 (by decide)⟩

/-- Claim C5, as stated, is false on the code: `ReceiptUpdate` admits a
status of "completed" and also an explicitly-null status (pydantic does
not apply the pattern to null), and `update_receipt` writes any supplied
status verbatim, so a cancelled receipt can be resurrected to "completed"
by an update, and an update can also leave the stored status NULL (the
column is nullable and its CHECK constraint passes on NULL). -/
theorem C5_counterexample :
    w_cancelled.status = some "cancelled" ∧
    resurrectUpd.statusPatternOk ∧
    (update_receipt [w_cancelled] 1 resurrectUpd 7 ["receipt_creator"] 20).2 =
      .ok { w_cancelled with status := some "completed", updated_at := 20 } ∧
    ({ w_cancelled with status := some "completed", updated_at := 20 } : Receipt).status =
      some "completed" ∧
    nullStatusUpd.statusPatternOk ∧
    (update_receipt [w_cancelled] 1 nullStatusUpd 7 ["receipt_creator"] 20).2 =
      .ok { w_cancelled with status := none, updated_at := 20 } := by
  decide

/-- Claim C5 amended: `delete_receipt` only ever writes status
"cancelled"; `update_receipt` writes any supplied status verbatim, so a
schema-valid update can move a cancelled receipt back to "completed"
(resurrection) or leave the stored status NULL (explicitly-supplied null,
written by the setattr loop; the nullable column and NULL-passing CHECK
let it commit).  The only status guarantee is that a schema-valid
operation leaves the status unchanged, NULL, "completed", or
"cancelled". -/
theorem C5_status_transitions (receipts : List Receipt) (rid uid now : Nat)
    (roles : List String) (upd : ReceiptUpdate) (r : Receipt)
    (hfind : receipts.find? (fun x => x.id == rid) = some r)
    (hallow : ¬("receipt_creator" ∈ roles ∧ r.created_by ≠ uid)) :
    ((delete_receipt receipts rid uid roles now).2 = .ok true ∧
      ∀ r', (delete_receipt receipts rid uid roles now).1.find?
          (fun x => x.id == rid) = some r' → r'.status = some "cancelled") ∧
    (upd.statusPatternOk →
      ∃ r', (update_receipt receipts rid upd uid roles now).2 = .ok r' ∧
        (r'.status = r.status ∨ r'.status = none ∨
          r'.status = some "completed" ∨ r'.status = some "cancelled")) := by
  constructor
  · rw [delete_receipt_found receipts rid uid roles now r hfind hallow]
    refine ⟨rfl, ?_⟩
    intro r' hr'
    have hid0 : r.id = rid := find?_id_eq hfind
    have hid : ({ r with status := some "cancelled", updated_at := now } : Receipt).id =
        rid := hid0
    rw [find?_map_replace receipts rid _ hid, hfind] at hr'
    simp only [Option.map] at hr'
    cases hr'
    rfl
  · intro hpat
    rw [update_receipt_found receipts rid upd uid roles now r hfind hallow]
    refine ⟨_, rfl, ?_⟩
    rcases hpat with h0 | hn | h1 | h2
    · left
      simp [applyReceiptUpdate, h0]
    · right
      left
      simp [applyReceiptUpdate, hn]
    · right
      right
      left
      simp [applyReceiptUpdate, h1]
    · right
      right
      right
      simp [applyReceiptUpdate, h2]

/-- Claim C5 witness: the amended status guarantees instantiated on a
cancelled receipt, the resurrecting update, and the explicit-null
update. -/
theorem C5_witness :
    (delete_receipt [w_cancelled] 1 7 ["receipt_creator"] 20).2 = .ok true ∧
    (∃ r', (update_receipt [w_cancelled] 1 resurrectUpd 7 ["receipt_creator"] 20).2 =
        .ok r' ∧
      (r'.status = w_cancelled.status ∨ r'.status = none ∨
        r'.status = some "completed" ∨ r'.status = some "cancelled")) ∧
    (∃ r', (update_receipt [w_cancelled] 1 nullStatusUpd 7 ["receipt_creator"] 20).2 =
        .ok r' ∧
      (r'.status = w_cancelled.status ∨ r'.status = none ∨
        r'.status = some "completed" ∨ r'.status = some "cancelled")) :=
  ⟨(C5_status_transitions [w_cancelled] 1 7 20 ["receipt_creator"] resurrectUpd
      w_cancelled (by decide) (by decide)).1.1,
   (C5_status_transitions [w_cancelled] 1 7 20 ["receipt_creator"] resurrectUpd
      w_cancelled (by decide) (by decide)).2 (by decide),
   (C5_status_transitions [w_cancelled] 1 7 20 ["receipt_creator"] nullStatusUpd
      w_cancelled (by decide) (by decide)).2 (by decide)⟩

/-! ## Claims about the creation control flow and frame conditions -/

/-- Claim C8, as stated, is false on the code: `create_receipt` wraps all
steps in a single try with no retry loop; a uniqueness violation at the
provisional insert is surfaced to the caller as an HTTP 500 after exactly
one insert attempt. -/
theorem C8_counterexample :
    c8att.insert_fails = some StepFailure.uniqueViolation ∧
    create_receipt_proc c2db 1407 2025 0 c2data 7 c8att = (.http500, 1) := by
  decide

/-- Claim C8 amended: no step of `create_receipt` is retried: exactly one
provisional-insert attempt is performed, a failure at any step (insert,
flush, or commit) aborts the whole attempt and is surfaced to the caller
as an HTTP 500 creation failure, and only an all-steps-succeed run commits
the receipt. -/
theorem C8_no_retry (db : Db) (next_id year now : Nat) (rd : ReceiptCreate)
    (user_id : Nat) (att : CreateAttempt) :
    (create_receipt_proc db next_id year now rd user_id att).2 = 1 ∧
    (att.insert_fails ≠ none →
      create_receipt_proc db next_id year now rd user_id att = (.http500, 1)) ∧
    (att.insert_fails = none → att.flush_fails ≠ none →
      create_receipt_proc db next_id year now rd user_id att = (.http500, 1)) ∧
    (att.insert_fails = none → att.flush_fails = none → att.commit_fails ≠ none →
      create_receipt_proc db next_id year now rd user_id att = (.http500, 1)) ∧
    (att.insert_fails = none → att.flush_fails = none → att.commit_fails = none →
      create_receipt_proc db next_id year now rd user_id att =
        (.ok (create_receipt db next_id year now rd user_id), 1)) := by
  obtain ⟨fi, ff, fc⟩ := att
  refine ⟨?_, ?_, ?_, ?_, ?_⟩
  · cases fi <;> cases ff <;> cases fc <;> rfl
  · intro h1
    cases fi with
    | none => exact absurd rfl h1
    | some f => rfl
  · intro h1 h2
    cases fi with
    | some f => exact absurd h1 (by simp)
    | none =>
      cases ff with
      | none => exact absurd rfl h2
      | some f => rfl
  · intro h1 h2 h3
    cases fi with
    | some f => exact absurd h1 (by simp)
    | none =>
      cases ff with
      | some f => exact absurd h2 (by simp)
      | none =>
        cases fc with
        | none => exact absurd rfl h3
        | some f => rfl
  · intro h1 h2 h3
    cases fi with
    | some f => exact absurd h1 (by simp)
    | none =>
      cases ff with
      | some f => exact absurd h2 (by simp)
      | none =>
        cases fc with
        | some f => exact absurd h3 (by simp)
        | none => rfl

/-- Claim C8 witness: the no-retry behaviour instantiated on a conflicting
insert and on a clean run. -/
theorem C8_witness :
    (create_receipt_proc c2db 1407 2025 0 c2data 7 c8att).2 = 1 ∧
    create_receipt_proc c2db 1407 2025 0 c2data 7 c8att = (.http500, 1) ∧
    create_receipt_proc c2db 1407 2025 0 c2data 7 ⟨none, none, none⟩ =
      (.ok (create_receipt c2db 1407 2025 0 c2data 7), 1) :=
  ⟨(C8_no_retry c2db 1407 2025 0 c2data 7 c8att).1,
   (C8_no_retry c2db 1407 2025 0 c2data 7 c8att).2.1 (by decide),
   (C8_no_retry c2db 1407 2025 0 c2data 7 ⟨none, none, none⟩).2.2.2.2
     rfl rfl rfl⟩

/-- Claim C9, as stated, is false on the code in one detail: an update
call also rewrites the `updated_at` timestamp, a field not exposed by
`ReceiptUpdate`; the empty update payload still changes the stored row. -/
theorem C9_counterexample :
    (update_receipt [w_receipt] 1 {} 7 ["receipt_creator"] 99).2 =
      .ok { w_receipt with updated_at := 99 } ∧
    ({ w_receipt with updated_at := 99 } : Receipt) ≠ w_receipt ∧
    ({ w_receipt with updated_at := 99 } : Receipt).updated_at ≠ w_receipt.updated_at ∧
    ({ w_receipt with updated_at := 99 } : Receipt).receipt_no = w_receipt.receipt_no ∧
    ({ w_receipt with updated_at := 99 } : Receipt).created_by = w_receipt.created_by := by
  decide

/-- Claim C9 amended: a successful `update_receipt` leaves `id`,
`receipt_no` (the receipt code), `created_by` (the creator) and
`created_at` unchanged; it sets `updated_at` to the call time and each
payload field to the supplied value when present and to the old value
otherwise; so only the `ReceiptUpdate`-exposed fields plus the
`updated_at` bookkeeping timestamp can change. -/
theorem C9_update_frame (receipts : List Receipt) (rid uid now : Nat)
    (roles : List String) (upd : ReceiptUpdate) (r : Receipt)
    (hfind : receipts.find? (fun x => x.id == rid) = some r)
    (hallow : ¬("receipt_creator" ∈ roles ∧ r.created_by ≠ uid)) :
    ∃ r', (update_receipt receipts rid upd uid roles now).2 = .ok r' ∧
      r'.id = r.id ∧ r'.receipt_no = r.receipt_no ∧ r'.created_by = r.created_by ∧
      r'.created_at = r.created_at ∧ r'.updated_at = now ∧
      r'.receipt_date = upd.receipt_date.getD r.receipt_date ∧
      r'.donor_name = upd.donor_name.getD r.donor_name ∧
      r'.payment_mode = upd.payment_mode.getD r.payment_mode ∧
      r'.donation1_amount = upd.donation1_amount.getD r.donation1_amount ∧
      r'.donation2_amount = upd.donation2_amount.getD r.donation2_amount ∧
      r'.total_amount = upd.total_amount.getD r.total_amount ∧
      r'.status = upd.status.getD r.status := by
  rw [update_receipt_found receipts rid upd uid roles now r hfind hallow]
  exact ⟨_, rfl, rfl, rfl, rfl, rfl, rfl, rfl, rfl, rfl, rfl, rfl, rfl, rfl⟩

/-- Claim C9 witness: the frame condition instantiated on a concrete
receipt and the empty payload. -/
theorem C9_witness :
    ∃ r', (update_receipt [w_receipt] 1 {} 7 ["receipt_creator"] 99).2 = .ok r' ∧
      r'.id = w_receipt.id ∧ r'.receipt_no = w_receipt.receipt_no ∧
      r'.created_by = w_receipt.created_by ∧
      r'.created_at = w_receipt.created_at ∧ r'.updated_at = 99 ∧
      r'.receipt_date = (({} : ReceiptUpdate)).receipt_date.getD w_receipt.receipt_date ∧
      r'.donor_name = (({} : ReceiptUpdate)).donor_name.getD w_receipt.donor_name ∧
      r'.payment_mode = (({} : ReceiptUpdate)).payment_mode.getD w_receipt.payment_mode ∧
      r'.donation1_amount =
        (({} : ReceiptUpdate)).donation1_amount.getD w_receipt.donation1_amount ∧
      r'.donation2_amount =
        (({} : ReceiptUpdate)).donation2_amount.getD w_receipt.donation2_amount ∧
      r'.total_amount = (({} : ReceiptUpdate)).total_amount.getD w_receipt.total_amount ∧
      r'.status = (({} : ReceiptUpdate)).status.getD w_receipt.status :=
  C9_update_frame [w_receipt] 1 7 99 ["receipt_creator"] {} w_receipt
    (by decide) (by decide)

/-- Claim C10: `delete_receipt` is idempotent.  It succeeds (returns True)
also on a receipt whose status is already "cancelled"; a second delete by
the same authorized principal succeeds again, the receipts table after two
successive deletes equals the table after a single delete performed at the
second call's time, and the receipt remains "cancelled". -/
theorem C10_delete_idempotent (receipts : List Receipt) (rid uid t1 t2 : Nat)
    (roles : List String) (r : Receipt)
    (hfind : receipts.find? (fun x => x.id == rid) = some r)
    (hallow : ¬("receipt_creator" ∈ roles ∧ r.created_by ≠ uid)) :
    (delete_receipt receipts rid uid roles t1).2 = .ok true ∧
    (delete_receipt (delete_receipt receipts rid uid roles t1).1 rid uid roles t2).2 =
      .ok true ∧
    (delete_receipt (delete_receipt receipts rid uid roles t1).1 rid uid roles t2).1 =
      (delete_receipt receipts rid uid roles t2).1 ∧
    ∀ r', (delete_receipt (delete_receipt receipts rid uid roles t1).1 rid uid
        roles t2).1.find? (fun x => x.id == rid) = some r' →
      r'.status = some "cancelled" := by
  have hid : r.id = rid := find?_id_eq hfind
  have h1 := delete_receipt_found receipts rid uid roles t1 r hfind hallow
  have hfind1 : (delete_receipt receipts rid uid roles t1).1.find?
      (fun x => x.id == rid) =
        some { r with status := some "cancelled", updated_at := t1 } := by
    rw [h1]
    rw [find?_map_replace receipts rid
      { r with status := some "cancelled", updated_at := t1 } hid, hfind]
    rfl
  have hallow1 : ¬("receipt_creator" ∈ roles ∧
      ({ r with status := some "cancelled", updated_at := t1 } : Receipt).created_by ≠
        uid) :=
    hallow
  have h2 := delete_receipt_found (delete_receipt receipts rid uid roles t1).1 rid uid
    roles t2 { r with status := some "cancelled", updated_at := t1 } hfind1 hallow1
  have h3 := delete_receipt_found receipts rid uid roles t2 r hfind hallow
  have hdb : (delete_receipt (delete_receipt receipts rid uid roles t1).1 rid uid
      roles t2).1 = (delete_receipt receipts rid uid roles t2).1 := by
    rw [h2, h3, h1]
    rw [List.map_map]
    apply congrArg (fun f => List.map f receipts)
    funext x
    by_cases hx : x.id = rid
    · have hbx : (x.id == rid) = true := beq_iff_eq.mpr hx
      have hbc : (({ r with status := some "cancelled", updated_at := t1 } : Receipt).id ==
          rid) = true := beq_iff_eq.mpr hid
      simp [Function.comp, hbx, hbc]
    · have hbx : (x.id == rid) = false := beq_eq_false_iff_ne.mpr hx
      simp [Function.comp, hbx]
  refine ⟨by rw [h1], by rw [h2], hdb, ?_⟩
  intro r' hr'
  rw [hdb, h3] at hr'
  rw [find?_map_replace receipts rid
    { r with status := some "cancelled", updated_at := t2 } hid, hfind] at hr'
  simp only [Option.map] at hr'
  cases hr'
  rfl

/-- Claim C10 witness: two successive deletes of an already cancelled
receipt, instantiated concretely. -/
theorem C10_witness :
    (delete_receipt [w_cancelled] 1 7 ["receipt_creator"] 30).2 = .ok true ∧
    (delete_receipt (delete_receipt [w_cancelled] 1 7 ["receipt_creator"] 30).1 1 7
        ["receipt_creator"] 40).2 = .ok true ∧
    (delete_receipt (delete_receipt [w_cancelled] 1 7 ["receipt_creator"] 30).1 1 7
        ["receipt_creator"] 40).1 =
      (delete_receipt [w_cancelled] 1 7 ["receipt_creator"] 40).1 :=
  ⟨(C10_delete_idempotent [w_cancelled] 1 7 30 40 ["receipt_creator"] w_cancelled
      (by decide) (by decide)).1,
   (C10_delete_idempotent [w_cancelled] 1 7 30 40 ["receipt_creator"] w_cancelled
      (by decide) (by decide)).2.1,
   (C10_delete_idempotent [w_cancelled] 1 7 30 40 ["receipt_creator"] w_cancelled
      (by decide) (by decide)).2.2.1⟩
